import Mathlib

/-!
Verification of the data-access and derived-statistics layer of the
banking-deposits dashboard (`streamlit_app/`).

Tables are embedded as lists of rows; pandas numeric columns are embedded as
exact rationals (`ℚ`).  pandas operations used by the code are embedded as
follows:

* `Series.sum` over a column: `List.sum` of the mapped column;
* `Series.mean`: `Option ℚ`, `none` standing for the NaN that pandas returns
  on an empty series, `some (sum / length)` otherwise;
* boolean-mask filtering `df[mask]`: `List.filter` (keeps row order);
* float division: where a zero denominator matters, `pandasDiv` returns
  `none`, standing for the inf/NaN float that pandas produces instead of a
  finite number;
* `groupby(key)`: the list of distinct keys in ascending order, each paired
  with the aggregate over the rows having that key (pandas `groupby` sorts
  group keys by default);
* `sort_values` / `sorted`: a comparison sort (`List.insertionSort`); the
  properties proved below (length, orderedness, permutation, behaviour on
  distinct keys) hold for any correct comparison sort, and no theorem below
  relies on how ties are broken;
* Python string ordering: lexicographic comparison of the character lists.
-/

/-- One row of `data/processed/cleaned_data.csv` (spec §6): columns
`state_name, district_name, region, population_group, no_of_offices,
no_of_accounts, deposit_amount`. -/
structure DepositRecord where
  state_name : String
  district_name : String
  region : String
  population_group : String
  no_of_offices : ℚ
  no_of_accounts : ℚ
  deposit_amount : ℚ
  deriving Repr, DecidableEq

/-- An in-memory dataframe: a list of rows in file order. -/
abbrev Table := List DepositRecord

/-- `df['deposit_amount'].sum()`. -/
def sumDeposits (df : Table) : ℚ := (df.map DepositRecord.deposit_amount).sum

/-- `df['no_of_offices'].sum()`. -/
def sumOffices (df : Table) : ℚ := (df.map DepositRecord.no_of_offices).sum

/-- `df['no_of_accounts'].sum()`. -/
def sumAccounts (df : Table) : ℚ := (df.map DepositRecord.no_of_accounts).sum

/-- pandas `Series.mean()`: NaN (here `none`) on an empty series, otherwise
sum divided by length. -/
def seriesMean (xs : List ℚ) : Option ℚ :=
  if xs.isEmpty then none else some (xs.sum / xs.length)

/-- Lexicographic order on character lists (Python's string order). -/
def listCharLe : List Char → List Char → Bool
  | [], _ => true
  | _ :: _, [] => false
  | a :: as, b :: bs => if a < b then true else if b < a then false else listCharLe as bs

/-- Python's `<=` on strings: lexicographic by code point. -/
def strLe (a b : String) : Bool := listCharLe a.data b.data

/-- `filter_data(df, population_group, region, state)` from
`streamlit_app/utils/data_loader.py` (lines 110-123): three sequential
conditional boolean-mask filters.  A criterion that is `None` (embedded as
`none`) or Python-falsy `""` or equal to `"All"` skips its filter step. -/
def filter_data (df : Table) (population_group region state : Option String) : Table :=
  let step1 :=
    match population_group with
    | some s => if s ≠ "" ∧ s ≠ "All" then df.filter (fun r => r.population_group == s) else df
    | none => df
  let step2 :=
    match region with
    | some s => if s ≠ "" ∧ s ≠ "All" then step1.filter (fun r => r.region == s) else step1
    | none => step1
  let step3 :=
    match state with
    | some s => if s ≠ "" ∧ s ≠ "All" then step2.filter (fun r => r.state_name == s) else step2
    | none => step2
  step3

/-- A single criterion, read against a cell value: an inactive criterion
(`none`, `""` or `"All"`) matches every value; an active one requires
equality. -/
def critMatches (c : Option String) (v : String) : Bool :=
  match c with
  | some s => if s ≠ "" ∧ s ≠ "All" then v == s else true
  | none => true

/-- The result record of `get_summary_stats` from
`streamlit_app/utils/data_loader.py` (lines 125-136). -/
structure SummaryStats where
  total_records : ℕ
  total_deposits : ℚ
  avg_deposits : Option ℚ
  total_offices : ℚ
  total_accounts : ℚ
  unique_states : ℕ
  unique_districts : ℕ
  deriving Repr, DecidableEq

/-- `get_summary_stats(df)` from `streamlit_app/utils/data_loader.py`
(lines 125-136): `len`, column sums, column mean, and `nunique` counts. -/
def get_summary_stats (df : Table) : SummaryStats where
  total_records := df.length
  total_deposits := sumDeposits df
  avg_deposits := seriesMean (df.map DepositRecord.deposit_amount)
  total_offices := sumOffices df
  total_accounts := sumAccounts df
  unique_states := (df.map DepositRecord.state_name).dedup.length
  unique_districts := (df.map DepositRecord.district_name).dedup.length

/-- Outcome of reading a backing artifact file: either its parsed content, or
the text of the exception raised because the file is missing, malformed or
unreadable. -/
inductive ReadOutcome (α : Type) where
  | ok : α → ReadOutcome α
  | failure : String → ReadOutcome α
  deriving Repr, DecidableEq

/-- What a load function hands back: the loaded value (`none` is Python's
`None` sentinel) together with the user-visible warnings emitted through
`st.error`. -/
structure LoadResult (α : Type) where
  value : Option α
  warnings : List String
  deriving Repr, DecidableEq

/-- `load_cleaned_data()` from `streamlit_app/utils/data_loader.py`
(lines 15-24): the `try` body parses the CSV; any exception is caught,
reported via `st.error`, and `None` is returned.  The embedding is a total
function of the read outcome: no exception escapes. -/
def load_cleaned_data (read : ReadOutcome Table) : LoadResult Table :=
  match read with
  | .ok df => { value := some df, warnings := [] }
  | .failure e => { value := none, warnings := ["Error loading cleaned data: " ++ e] }

/-- `load_featured_data()` from `streamlit_app/utils/data_loader.py`
(lines 26-35): same catch-all contract as `load_cleaned_data`.  (The featured
table's extra engineered columns play no role in any claim; its rows are
embedded with the shared row type.) -/
def load_featured_data (read : ReadOutcome Table) : LoadResult Table :=
  match read with
  | .ok df => { value := some df, warnings := [] }
  | .failure e => { value := none, warnings := ["Error loading featured data: " ++ e] }

/-- One row of `reports/model_results/final_model_comparison.csv`
(spec §3, "Model Comparison Row"). -/
structure ModelComparisonRow where
  model_name : String
  test_r2 : ℚ
  test_rmse : ℚ
  test_mae : ℚ
  training_time : ℚ
  deriving Repr, DecidableEq

/-- `load_model_comparison()` from `streamlit_app/utils/data_loader.py`
(lines 37-46): same catch-all contract as `load_cleaned_data`. -/
def load_model_comparison (read : ReadOutcome (List ModelComparisonRow)) :
    LoadResult (List ModelComparisonRow) :=
  match read with
  | .ok df => { value := some df, warnings := [] }
  | .failure e => { value := none, warnings := ["Error loading model comparison: " ++ e] }

/-- An opaque fitted regressor object (`models/saved_models/{name}.pkl`),
used only as reference metadata in this codebase. -/
structure FittedModel where
  payload : String
  deriving Repr, DecidableEq

/-- `load_best_model(model_name)` from `streamlit_app/utils/data_loader.py`
(lines 48-57): same catch-all contract as `load_cleaned_data`. -/
def load_best_model (model_name : String) (read : ReadOutcome FittedModel) :
    LoadResult FittedModel :=
  match read with
  | .ok m => { value := some m, warnings := [] }
  | .failure e =>
      { value := none, warnings := ["Error loading model " ++ model_name ++ ": " ++ e] }

/-- What a page render comes to after the load guard. -/
inductive PageRender where
  | halted : String → PageRender
  | rendered : PageRender
  deriving Repr, DecidableEq

/-- The guard at the top of the Predictions page (lines 35-39):
`df = load_cleaned_data(); if df is None: st.error(...); st.stop()` —
a `None` load halts the page before any further computation. -/
def predictions_page_guard (loaded : Option Table) : PageRender :=
  match loaded with
  | none => .halted "Unable to load reference data."
  | some _ => .rendered

/-- `similar_records` from the Predictions page (lines 112-115): the rows
whose population group and region both equal the chosen values. -/
def similar_records (df : Table) (population_group region : String) : Table :=
  df.filter (fun r => r.population_group == population_group && r.region == region)

/-- Outcome of pressing "Predict Deposit Amount": either a numeric estimate,
or the `st.error("No similar records found ...")` branch, which carries no
number at all. -/
inductive PredictionOutcome where
  | predicted : ℚ → PredictionOutcome
  | noSimilarRecords : PredictionOutcome
  deriving Repr, DecidableEq

/-- The prediction computation on the Predictions page (lines 112-126 and
211-212): if the similar-records subset is non-empty, blend the subset's
deposit-per-office and deposit-per-account rates; otherwise take the error
branch. -/
def run_prediction (df : Table) (population_group region : String)
    (no_of_offices no_of_accounts : ℚ) : PredictionOutcome :=
  let similar := similar_records df population_group region
  if similar.length > 0 then
    let avg_deposit_per_office := sumDeposits similar / sumOffices similar
    let avg_deposit_per_account := sumDeposits similar / sumAccounts similar
    .predicted ((no_of_offices * avg_deposit_per_office * 0.5) +
      (no_of_accounts * avg_deposit_per_account * 0.5))
  else
    .noSimilarRecords

/-- The scenario-comparison estimator on the Predictions page (lines
236-241): the account count is collected by the scenario form but never used;
an empty matching subset silently falls back to the whole dataset's mean
deposit (`avg_deposits`, page line 44). -/
def scenario_prediction (df : Table) (s_pop_group s_region : String)
    (s_offices s_accounts : ℚ) : ℚ :=
  let similar := df.filter (fun r => r.population_group == s_pop_group && r.region == s_region)
  if similar.length > 0 then
    let avg_per_office := sumDeposits similar / sumOffices similar
    s_offices * avg_per_office
  else
    sumDeposits df / df.length

/-- The 3-row example table of spec §8: (Rural, East, 2 offices, 20 accounts,
1000), (Rural, East, 3, 45, 2000), (Urban, West, 5, 100, 9000), with distinct
state and district names. -/
def specTable : Table :=
  [ { state_name := "A", district_name := "DA", region := "East",
      population_group := "Rural", no_of_offices := 2, no_of_accounts := 20,
      deposit_amount := 1000 },
    { state_name := "B", district_name := "DB", region := "East",
      population_group := "Rural", no_of_offices := 3, no_of_accounts := 45,
      deposit_amount := 2000 },
    { state_name := "C", district_name := "DC", region := "West",
      population_group := "Urban", no_of_offices := 5, no_of_accounts := 100,
      deposit_amount := 9000 } ]

/-- `get_population_groups()` from `streamlit_app/utils/data_loader.py`
(lines 83-85): a hard-coded list.  The source function reads no data at all;
the embedding takes the dataset load result as an argument — the same
interface as the data-derived enumerations below — precisely to state that
the answer never depends on it. -/
def get_population_groups (loaded : Option Table) : List String :=
  ["Metropolitan", "Urban", "Semi-urban", "Rural"]

/-- `get_regions()` from `streamlit_app/utils/data_loader.py` (lines 87-92):
`sorted(df['region'].unique().tolist())` on a successful load, `[]` when the
load failed. -/
def get_regions (loaded : Option Table) : List String :=
  match loaded with
  | some df => List.insertionSort (fun a b => strLe a b) (df.map DepositRecord.region).dedup
  | none => []

/-- pandas float division where the denominator may be zero: `none` stands
for the inf/NaN float produced on a zero denominator — not a finite defined
value. -/
def pandasDiv (a b : ℚ) : Option ℚ := if b = 0 then none else some (a / b)

/-- `Series.replace(0, 1)` applied to one cell. -/
def replaceZeroOne (x : ℚ) : ℚ := if x = 0 then 1 else x

/-- The efficiency-metric selector of the Geographic page (lines 395-398). -/
inductive EfficiencyMetric where
  | accountsPerOffice
  | depositPerOffice
  | depositPerAccount
  deriving Repr, DecidableEq

/-- The per-row efficiency column `df['metric']` of the Geographic page
(lines 400-408): each branch divides by a denominator column whose zeros were
replaced by one via `.replace(0, 1)`. -/
def row_efficiency_metric (m : EfficiencyMetric) (r : DepositRecord) : Option ℚ :=
  match m with
  | .accountsPerOffice => pandasDiv r.no_of_accounts (replaceZeroOne r.no_of_offices)
  | .depositPerOffice => pandasDiv r.deposit_amount (replaceZeroOne r.no_of_offices)
  | .depositPerAccount => pandasDiv r.deposit_amount (replaceZeroOne r.no_of_accounts)

/-- `df.groupby(key)`: the distinct keys of the table, in ascending key order
(pandas sorts group keys by default). -/
def groupKeys (df : Table) (key : DepositRecord → String) : List String :=
  List.insertionSort (fun a b => strLe a b) (df.map key).dedup

/-- One row of the region-level `efficiency_df` table of the Geographic page
(lines 204-212): group sums by region plus the three ratio columns, each
computed by dividing the group sums directly — no zero guard.  (The page's
`.round(2)` display rounding is presentation and omitted.) -/
structure EfficiencyRow where
  region : String
  deposit_per_office : Option ℚ
  deposit_per_account : Option ℚ
  accounts_per_office : Option ℚ
  deriving Repr, DecidableEq

/-- `efficiency_df` from the Geographic page (lines 204-212). -/
def efficiency_df (df : Table) : List EfficiencyRow :=
  (groupKeys df DepositRecord.region).map (fun reg =>
    let g := df.filter (fun r => r.region == reg)
    { region := reg
      deposit_per_office := pandasDiv (sumDeposits g) (sumOffices g)
      deposit_per_account := pandasDiv (sumDeposits g) (sumAccounts g)
      accounts_per_office := pandasDiv (sumAccounts g) (sumOffices g) })

/-- The data behind `create_top_states_chart` from
`streamlit_app/utils/visualizations.py` (lines 299-301):
`df.groupby('state_name')['deposit_amount'].sum()
.sort_values(ascending=False).head(top_n)` — one entry per distinct state,
sorted by the summed deposit, descending. -/
def top_states (df : Table) (top_n : ℕ) : List (String × ℚ) :=
  (List.insertionSort (fun a b : String × ℚ => b.2 ≤ a.2)
    ((groupKeys df DepositRecord.state_name).map
      (fun k => (k, sumDeposits (df.filter (fun r => r.state_name == k)))))).take top_n

/-- The per-district aggregate behind `top_districts` / `bottom_districts` of
the Geographic page (lines 343-346 and 367-370): deposit sum and first state
name per distinct district. -/
def district_rows (df : Table) : List (String × ℚ × String) :=
  (groupKeys df DepositRecord.district_name).map (fun k =>
    let g := df.filter (fun r => r.district_name == k)
    (k, sumDeposits g, ((g.map DepositRecord.state_name).headI)))

/-- `top_districts` (Geographic page lines 343-346): district aggregates
sorted by summed deposit descending, first 10. -/
def top_districts (df : Table) : List (String × ℚ × String) :=
  (List.insertionSort (fun a b : String × ℚ × String => b.2.1 ≤ a.2.1)
    (district_rows df)).take 10

/-- `bottom_districts` (Geographic page lines 367-370): district aggregates
sorted by summed deposit ascending, first 10. -/
def bottom_districts (df : Table) : List (String × ℚ × String) :=
  (List.insertionSort (fun a b : String × ℚ × String => a.2.1 ≤ b.2.1)
    (district_rows df)).take 10

/-- The fixed numeric columns of the correlation analysis
(`numerical_features`, EDA page lines 138-149). -/
inductive NumCol where
  | offices
  | accounts
  | deposits
  deriving Repr, DecidableEq

/-- Column projection for the correlation analysis. -/
def colVal : NumCol → DepositRecord → ℚ
  | .offices => DepositRecord.no_of_offices
  | .accounts => DepositRecord.no_of_accounts
  | .deposits => DepositRecord.deposit_amount

/-- Column mean used by the Pearson correlation. -/
def colMean (df : Table) (c : NumCol) : ℚ := (df.map (colVal c)).sum / df.length

/-- Centered second moment Σ (xᵢ − x̄)(yᵢ − ȳ) between two columns. -/
def centeredDot (df : Table) (i j : NumCol) : ℚ :=
  (df.map (fun r => (colVal i r - colMean df i) * (colVal j r - colMean df j))).sum

/-- One entry of `df[columns].corr()` (pandas Pearson correlation, used by
`create_correlation_heatmap` in `visualizations.py` lines 42-55 and the EDA
page lines 145-149): rᵢⱼ = Sᵢⱼ / √(Sᵢᵢ·Sⱼⱼ).  The code's float square root
is embedded as the exact real square root. -/
noncomputable def corrMatrix (df : Table) (i j : NumCol) : ℝ :=
  (centeredDot df i j : ℝ) / Real.sqrt ((centeredDot df i i : ℝ) * (centeredDot df j j : ℝ))

/-- A 3-row table whose three rows all carry the same state name. -/
def oneStateTable : Table :=
  [ { state_name := "X", district_name := "D1", region := "East",
      population_group := "Rural", no_of_offices := 2, no_of_accounts := 20,
      deposit_amount := 1000 },
    { state_name := "X", district_name := "D2", region := "East",
      population_group := "Rural", no_of_offices := 3, no_of_accounts := 45,
      deposit_amount := 2000 },
    { state_name := "X", district_name := "D3", region := "West",
      population_group := "Urban", no_of_offices := 5, no_of_accounts := 100,
      deposit_amount := 9000 } ]

/-- A row with a zero office count. -/
def zRow : DepositRecord :=
  { state_name := "Z", district_name := "DZ", region := "East",
    population_group := "Rural", no_of_offices := 0, no_of_accounts := 10,
    deposit_amount := 500 }

/-- A 1-row table whose single row has a zero office count. -/
def zeroOfficeTable : Table := [zRow]

/-- The region-level efficiency row that `efficiency_df` computes on
`zeroOfficeTable`: both office ratios are the undefined pandas value. -/
def zEfficiencyRow : EfficiencyRow :=
  { region := "East", deposit_per_office := none,
    deposit_per_account := some 50, accounts_per_office := none }

/-- A 3-row table with non-constant numeric columns (positive variance in
each of the three numeric columns). -/
def corrWitnessTable : Table :=
  [ { state_name := "A", district_name := "DA", region := "East",
      population_group := "Rural", no_of_offices := 1, no_of_accounts := 1,
      deposit_amount := 5 },
    { state_name := "B", district_name := "DB", region := "East",
      population_group := "Rural", no_of_offices := 2, no_of_accounts := 3,
      deposit_amount := 4 },
    { state_name := "C", district_name := "DC", region := "West",
      population_group := "Urban", no_of_offices := 3, no_of_accounts := 2,
      deposit_amount := 6 } ]

/-- C2: `filter_data` returns exactly the rows of the input that match all
non-empty criteria over population group, region and state (a `none`/`"All"`
criterion constrains nothing), and the result is a sublist of the input:
a subset of its rows by identity, never a superset, in the same relative
order. -/
theorem filter_data_exact_filter (df : Table) (pg reg st : Option String) :
    filter_data df pg reg st
      = df.filter (fun r => critMatches pg r.population_group
          && critMatches reg r.region && critMatches st r.state_name)
    ∧ (filter_data df pg reg st).Sublist df := by
  have hmain : filter_data df pg reg st
      = df.filter (fun r => critMatches pg r.population_group
          && critMatches reg r.region && critMatches st r.state_name) := by
    unfold filter_data critMatches
    rcases pg with _ | s1 <;> rcases reg with _ | s2 <;> rcases st with _ | s3 <;>
      simp only [] <;> (try split_ifs) <;>
      simp [List.filter_filter, List.filter_true,
        Bool.and_comm, Bool.and_assoc, Bool.and_left_comm]
  exact ⟨hmain, hmain ▸ List.filter_sublist df⟩

/-- C3: `get_summary_stats` on the empty table does not raise (it is a total
function of the table) and returns zero for every count and sum field, and
the pandas NaN (embedded as `none`) for the mean deposit — an explicit
not-applicable value, not a propagated division error. -/
theorem get_summary_stats_empty :
    get_summary_stats ([] : Table)
      = { total_records := 0, total_deposits := 0, avg_deposits := none,
          total_offices := 0, total_accounts := 0,
          unique_states := 0, unique_districts := 0 } := by
  rfl

/-- C4: when the backing file read fails for any reason, both table loading
and model loading return the `None` sentinel and surface a user-visible
warning instead of raising (the embedded load functions are total), and the
calling page's guard halts further rendering on the `None` value. -/
theorem load_failure_contract (e model_name : String) :
    (load_cleaned_data (.failure e)).value = none
    ∧ (load_cleaned_data (.failure e)).warnings ≠ []
    ∧ (load_featured_data (.failure e)).value = none
    ∧ (load_featured_data (.failure e)).warnings ≠ []
    ∧ (load_model_comparison (.failure e)).value = none
    ∧ (load_model_comparison (.failure e)).warnings ≠ []
    ∧ (load_best_model model_name (.failure e)).value = none
    ∧ (load_best_model model_name (.failure e)).warnings ≠ []
    ∧ predictions_page_guard (load_cleaned_data (.failure e)).value
        = PageRender.halted "Unable to load reference data." := by
  refine ⟨rfl, ?_, rfl, ?_, rfl, ?_, rfl, ?_, rfl⟩ <;>
    simp [load_cleaned_data, load_featured_data, load_model_comparison, load_best_model]

/-- C1: whenever the similar-records subset is non-empty, the heuristic
prediction equals `0.5 * offices * (Σdeposit / Σoffices) +
0.5 * accounts * (Σdeposit / Σaccounts)` over that subset; on the spec's
2-row Rural/East subset with offices = 4 and accounts = 30 the estimate is
24600/13, within 0.05 of the spec's 1892.3. -/
theorem predicted_deposit_formula :
    (∀ (df : Table) (pg reg : String) (offices accounts : ℚ),
      similar_records df pg reg ≠ [] →
      run_prediction df pg reg offices accounts
        = PredictionOutcome.predicted
            (0.5 * offices
                * (sumDeposits (similar_records df pg reg) / sumOffices (similar_records df pg reg))
             + 0.5 * accounts
                * (sumDeposits (similar_records df pg reg) / sumAccounts (similar_records df pg reg))))
    ∧ run_prediction specTable "Rural" "East" 4 30 = PredictionOutcome.predicted (24600 / 13)
    ∧ |(24600 : ℚ) / 13 - 1892.3| < 0.05 := by
  refine ⟨?_, ?_, ?_⟩
  · intro df pg reg offices accounts h
    have hlen : 0 < (similar_records df pg reg).length := List.length_pos.mpr h
    unfold run_prediction
    simp only [hlen, if_pos]
    congr 1
    ring
  · have hsub : similar_records specTable "Rural" "East" = [specTable.get ⟨0, by norm_num [specTable]⟩, specTable.get ⟨1, by norm_num [specTable]⟩] := by
      simp [similar_records, specTable]
    rw [run_prediction, hsub]
    norm_num [sumDeposits, sumOffices, sumAccounts, specTable]
  · rw [abs_lt]
    constructor <;> norm_num

/-- C6: when the subset of rows matching the chosen population group and
region is empty, the prediction tool takes the explicit
"No similar records found" branch — an outcome that carries no numeric
estimate and is computed without any division. -/
theorem run_prediction_empty_subset (df : Table) (pg reg : String)
    (offices accounts : ℚ) (h : similar_records df pg reg = []) :
    run_prediction df pg reg offices accounts = PredictionOutcome.noSimilarRecords := by
  unfold run_prediction
  simp [h]

/-- Witness for C6: on the spec's 3-row table there is no Metropolitan/North
row, and the tool reports no similar records there. -/
theorem run_prediction_empty_subset_witness :
    similar_records specTable "Metropolitan" "North" = []
    ∧ run_prediction specTable "Metropolitan" "North" 4 30
        = PredictionOutcome.noSimilarRecords :=
  ⟨by simp [similar_records, specTable],
   run_prediction_empty_subset specTable "Metropolitan" "North" 4 30
     (by simp [similar_records, specTable])⟩

/-- Witness for C1: the non-empty-subset formula instantiated on the spec's
3-row table at offices = 4, accounts = 30. -/
theorem predicted_deposit_formula_witness :
    similar_records specTable "Rural" "East" ≠ []
    ∧ run_prediction specTable "Rural" "East" 4 30
        = PredictionOutcome.predicted
            (0.5 * 4
                * (sumDeposits (similar_records specTable "Rural" "East")
                    / sumOffices (similar_records specTable "Rural" "East"))
             + 0.5 * 30
                * (sumDeposits (similar_records specTable "Rural" "East")
                    / sumAccounts (similar_records specTable "Rural" "East"))) :=
  ⟨by simp [similar_records, specTable],
   predicted_deposit_formula.1 specTable "Rural" "East" 4 30
     (by simp [similar_records, specTable])⟩

/-- C10: the scenario-comparison estimator predicts
`offices * (Σdeposit / Σoffices)` over the rows matching the scenario's
population group and region; the account count does not influence the result;
and on an empty matching subset it silently returns the mean deposit of the
whole dataset (the pandas mean, for a loaded non-empty dataset). -/
theorem scenario_prediction_spec (df : Table) (pg reg : String)
    (offices accounts : ℚ) :
    (df.filter (fun r => r.population_group == pg && r.region == reg) ≠ [] →
      scenario_prediction df pg reg offices accounts
        = offices * (sumDeposits (df.filter (fun r => r.population_group == pg && r.region == reg))
            / sumOffices (df.filter (fun r => r.population_group == pg && r.region == reg))))
    ∧ (df ≠ [] →
       df.filter (fun r => r.population_group == pg && r.region == reg) = [] →
      some (scenario_prediction df pg reg offices accounts)
        = seriesMean (df.map DepositRecord.deposit_amount))
    ∧ (∀ accounts2 : ℚ,
      scenario_prediction df pg reg offices accounts
        = scenario_prediction df pg reg offices accounts2) := by
  refine ⟨?_, ?_, fun _ => rfl⟩
  · intro h
    have hlen : 0 < (df.filter (fun r => r.population_group == pg && r.region == reg)).length :=
      List.length_pos.mpr h
    unfold scenario_prediction
    simp [hlen]
  · intro hdf hsub
    unfold scenario_prediction
    rw [hsub]
    simp [seriesMean, sumDeposits, List.isEmpty_iff, hdf]

/-- Witness for C10: both branches of the scenario estimator instantiated on
the spec's 3-row table. -/
theorem scenario_prediction_spec_witness :
    specTable.filter (fun r => r.population_group == "Rural" && r.region == "East") ≠ []
    ∧ scenario_prediction specTable "Rural" "East" 4 30
        = 4 * (sumDeposits (specTable.filter
              (fun r => r.population_group == "Rural" && r.region == "East"))
            / sumOffices (specTable.filter
              (fun r => r.population_group == "Rural" && r.region == "East")))
    ∧ specTable ≠ []
    ∧ specTable.filter (fun r => r.population_group == "Metropolitan" && r.region == "North") = []
    ∧ some (scenario_prediction specTable "Metropolitan" "North" 4 30)
        = seriesMean (specTable.map DepositRecord.deposit_amount) :=
  ⟨by simp [specTable],
   (scenario_prediction_spec specTable "Rural" "East" 4 30).1 (by simp [specTable]),
   by simp [specTable],
   by simp [specTable],
   (scenario_prediction_spec specTable "Metropolitan" "North" 4 30).2.1
     (by simp [specTable]) (by simp [specTable])⟩

/-- C9: the population-group enumeration is the fixed list
`["Metropolitan", "Urban", "Semi-urban", "Rural"]` for every dataset load
result — other group labels in the data, or a failed load, change nothing —
and that list is not in alphabetical order; by contrast, the region
enumeration is computed from the loaded data and varies with it. -/
theorem get_population_groups_fixed :
    (∀ loaded : Option Table,
      get_population_groups loaded = ["Metropolitan", "Urban", "Semi-urban", "Rural"])
    ∧ ¬ List.Sorted (fun a b => strLe a b = true) (get_population_groups none)
    ∧ get_regions (some specTable) = ["East", "West"]
    ∧ get_regions (some zeroOfficeTable) = ["East"]
    ∧ get_regions (some specTable) ≠ get_regions (some zeroOfficeTable)
    ∧ get_regions none = [] := by
  refine ⟨fun _ => rfl, ?_, ?_, ?_, ?_, rfl⟩ <;> decide

/-- C7 fails as stated: the region-level efficiency table of the Geographic
page divides group sums with no zero guard; on a table whose single row has
zero offices, its deposit-per-office entry is the undefined pandas value
(`none`), while the claimed zero-as-one guard would have produced 500/1. -/
theorem efficiency_df_unguarded :
    (efficiency_df zeroOfficeTable).map EfficiencyRow.deposit_per_office = [none]
    ∧ row_efficiency_metric EfficiencyMetric.depositPerOffice zRow = some 500 := by
  constructor
  · have hk : groupKeys zeroOfficeTable DepositRecord.region = ["East"] := by decide
    simp only [efficiency_df, hk, List.map_cons, List.map_nil]
    norm_num [zeroOfficeTable, zRow, sumDeposits, sumOffices, pandasDiv]
  · norm_num [row_efficiency_metric, pandasDiv, replaceZeroOne, zRow]

/-- C7 amended: the per-row efficiency metric of the Geographic page guards
its denominator with `.replace(0, 1)` and always yields a defined value, for
every metric choice and every row; the region-level efficiency table instead
divides group sums directly, so its deposit-per-office entry is undefined
exactly when the group's total office count is zero. -/
theorem ratio_zero_guard (m : EfficiencyMetric) (r : DepositRecord) (df : Table)
    (row : EfficiencyRow) (hrow : row ∈ efficiency_df df) :
    (row_efficiency_metric m r).isSome = true
    ∧ (row.deposit_per_office = none
        ↔ sumOffices (df.filter (fun x => x.region == row.region)) = 0) := by
  have hrz : ∀ x : ℚ, replaceZeroOne x ≠ 0 := by
    intro x
    unfold replaceZeroOne
    split_ifs with h
    · exact one_ne_zero
    · exact h
  constructor
  · cases m <;> simp [row_efficiency_metric, pandasDiv, hrz]
  · obtain ⟨reg, _, hEq⟩ := List.mem_map.mp hrow
    subst hEq
    simp only [pandasDiv]
    split_ifs with h <;> simp [h]

/-- Witness for C7 amended: the guarded per-row metric is defined on the
zero-office row, and the unguarded region row of `efficiency_df` on the
1-row zero-office table is undefined exactly because the group office sum is
zero. -/
theorem ratio_zero_guard_witness :
    (row_efficiency_metric EfficiencyMetric.depositPerOffice zRow).isSome = true
    ∧ zEfficiencyRow ∈ efficiency_df zeroOfficeTable
    ∧ (zEfficiencyRow.deposit_per_office = none
        ↔ sumOffices (zeroOfficeTable.filter (fun x => x.region == zEfficiencyRow.region)) = 0) := by
  have hdf : efficiency_df zeroOfficeTable = [zEfficiencyRow] := by
    have hk : groupKeys zeroOfficeTable DepositRecord.region = ["East"] := by decide
    simp only [efficiency_df, hk, List.map_cons, List.map_nil]
    norm_num [zeroOfficeTable, zRow, zEfficiencyRow, sumDeposits, sumOffices, sumAccounts, pandasDiv]
  have hm : zEfficiencyRow ∈ efficiency_df zeroOfficeTable := by
    rw [hdf]
    exact List.mem_singleton.mpr rfl
  exact ⟨(ratio_zero_guard EfficiencyMetric.depositPerOffice zRow zeroOfficeTable
            zEfficiencyRow hm).1,
         hm,
         (ratio_zero_guard EfficiencyMetric.depositPerOffice zRow zeroOfficeTable
            zEfficiencyRow hm).2⟩

/-- C5 fails as stated: the claim reads the Top-N selection as returning
exactly N rows unless the table holds fewer than N rows; but the code's
Top-N runs on per-state group aggregates, so on a 3-row table whose rows all
share one state, Top-2-by-deposit returns a single row. -/
theorem top_states_counterexample :
    (top_states oneStateTable 2).length = 1 ∧ oneStateTable.length = 3 := by
  constructor
  · have hk : groupKeys oneStateTable DepositRecord.state_name = ["X"] := by decide
    simp [top_states, hk, List.insertionSort, List.orderedInsert, List.length_take]
  · rfl

/-- C5 amended: Top-N / Bottom-N select among per-key group aggregates, not
raw rows: they return min(N, number of distinct keys) aggregate rows — fewer
than N whenever there are fewer distinct keys, even if the table holds at
least N rows — ordered by the summed numeric column (descending for Top,
ascending for Bottom); on the spec's 3-row example, whose keys are distinct,
Top-2 by deposit is the Urban row's state (9000) followed by the second
Rural row's state (2000). -/
theorem top_n_group_aggregates (df : Table) (n : ℕ) :
    (top_states df n).length = min n (df.map DepositRecord.state_name).dedup.length
    ∧ List.Sorted (fun a b : String × ℚ => b.2 ≤ a.2) (top_states df n)
    ∧ (top_districts df).length = min 10 (df.map DepositRecord.district_name).dedup.length
    ∧ List.Sorted (fun a b : String × ℚ × String => b.2.1 ≤ a.2.1) (top_districts df)
    ∧ List.Sorted (fun a b : String × ℚ × String => a.2.1 ≤ b.2.1) (bottom_districts df)
    ∧ top_states specTable 2 = [("C", 9000), ("B", 2000)] := by
  haveI i1 : IsTotal (String × ℚ) (fun a b => b.2 ≤ a.2) := ⟨fun a b => le_total b.2 a.2⟩
  haveI i2 : IsTrans (String × ℚ) (fun a b => b.2 ≤ a.2) :=
    ⟨fun _ _ _ h1 h2 => le_trans h2 h1⟩
  haveI i3 : IsTotal (String × ℚ × String) (fun a b => b.2.1 ≤ a.2.1) :=
    ⟨fun a b => le_total b.2.1 a.2.1⟩
  haveI i4 : IsTrans (String × ℚ × String) (fun a b => b.2.1 ≤ a.2.1) :=
    ⟨fun _ _ _ h1 h2 => le_trans h2 h1⟩
  haveI i5 : IsTotal (String × ℚ × String) (fun a b => a.2.1 ≤ b.2.1) :=
    ⟨fun a b => le_total a.2.1 b.2.1⟩
  haveI i6 : IsTrans (String × ℚ × String) (fun a b => a.2.1 ≤ b.2.1) :=
    ⟨fun _ _ _ h1 h2 => le_trans h1 h2⟩
  refine ⟨?_, ?_, ?_, ?_, ?_, ?_⟩
  · simp [top_states, List.length_take, (List.perm_insertionSort _ _).length_eq,
      groupKeys]
  · exact List.Pairwise.sublist (List.take_sublist _ _) (List.sorted_insertionSort _ _)
  · simp [top_districts, district_rows, List.length_take,
      (List.perm_insertionSort _ _).length_eq, groupKeys]
  · exact List.Pairwise.sublist (List.take_sublist _ _) (List.sorted_insertionSort _ _)
  · exact List.Pairwise.sublist (List.take_sublist _ _) (List.sorted_insertionSort _ _)
  · have hk : groupKeys specTable DepositRecord.state_name = ["A", "B", "C"] := by decide
    have hmap : List.map
        (fun k => (k, sumDeposits (specTable.filter (fun r => r.state_name == k))))
        ["A", "B", "C"] = [("A", 1000), ("B", 2000), ("C", 9000)] := by
      simp [specTable, sumDeposits]
    unfold top_states
    rw [hk, hmap]
    simp only [List.insertionSort, List.orderedInsert]
    norm_num

/-- C8: the Pearson correlation matrix over the fixed numeric columns is
symmetric and carries 1 on every diagonal entry, for every table whose
numeric columns are non-degenerate (positive centered second moment). -/
theorem corrMatrix_symm_diag (df : Table)
    (hnd : ∀ c : NumCol, 0 < centeredDot df c c) :
    (∀ i j : NumCol, corrMatrix df i j = corrMatrix df j i)
    ∧ (∀ i : NumCol, corrMatrix df i i = 1) := by
  have hsym : ∀ i j : NumCol, centeredDot df i j = centeredDot df j i := by
    intro i j
    unfold centeredDot
    congr 1
    apply List.map_congr_left
    intro r _
    ring
  constructor
  · intro i j
    unfold corrMatrix
    rw [hsym i j, mul_comm ((centeredDot df j j : ℚ) : ℝ) ((centeredDot df i i : ℚ) : ℝ)]
  · intro i
    unfold corrMatrix
    have h0 : (0 : ℝ) < ((centeredDot df i i : ℚ) : ℝ) := by
      exact_mod_cast hnd i
    rw [Real.sqrt_mul_self h0.le]
    exact div_self h0.ne'

/-- Witness for C8: on a concrete 3-row table with non-constant numeric
columns, the non-degeneracy hypothesis holds and the symmetry and diagonal
facts follow. -/
theorem corrMatrix_symm_diag_witness :
    (0 : ℚ) < centeredDot corrWitnessTable NumCol.offices NumCol.offices
    ∧ corrMatrix corrWitnessTable NumCol.offices NumCol.accounts
        = corrMatrix corrWitnessTable NumCol.accounts NumCol.offices
    ∧ corrMatrix corrWitnessTable NumCol.offices NumCol.offices = 1 := by
  have hnd : ∀ c : NumCol, 0 < centeredDot corrWitnessTable c c := by
    intro c
    cases c <;> norm_num [centeredDot, colMean, colVal, corrWitnessTable]
  exact ⟨hnd NumCol.offices,
         (corrMatrix_symm_diag corrWitnessTable hnd).1 NumCol.offices NumCol.accounts,
         (corrMatrix_symm_diag corrWitnessTable hnd).2 NumCol.offices⟩
